import Mathlib

/-!
Shallow embedding of `aim_toolkit/get_wellcome_pub_ids.py` (the whole
repository is this one file) and verification of its specification.

The script reads year-partitioned parquet files of publication records,
explodes the nested `funding` column into one row per funding
acknowledgment, derives a `grid_id` column, and concatenates all
per-partition frames into one output table.

Modelling conventions:
* a pandas DataFrame of publication records is a `List PublicationRecord`,
  carrying its default `RangeIndex` implicitly as the list position;
* after `explode`, each row keeps its original integer index label
  (pandas repeats the label), modelled by the `idx` field of `FlatRow`;
* `pd.DataFrame(df_funded['funding'].to_list())['grid_id']` is a Series on
  a fresh `RangeIndex 0..m-1`; column assignment `df['grid_id'] = series`
  aligns BY INDEX LABEL, so an exploded row labelled `i` receives the
  series value at position `i` (NaN, i.e. `none`, when `i ≥ m`);
* a missing value (NaN / absent key) is `none`;
* selecting a column that does not exist (which happens for
  `pd.DataFrame([])['grid_id']` when zero exploded rows exist) raises
  `KeyError`, and `pd.concat []` raises
  `ValueError: No objects to concatenate`; fallible steps therefore live
  in `Except String`;
* the S3 gateway is abstracted by a function `storage : String → List
  PublicationRecord` giving the records stored at each URI.
-/

namespace AAIM

/-- One element of a record's nested `funding` list: a dict whose
`grid_id` entry may be null/absent. -/
structure FundingAck where
  grid_id : Option String
deriving Repr, DecidableEq

/-- One row of the frame returned by
`wr.s3.read_parquet(uri, columns=['doi', 'funding', 'pmid', 'pmcid'])`. -/
structure PublicationRecord where
  doi : Option String
  funding : List FundingAck
  pmid : Option String
  pmcid : Option String
deriving Repr, DecidableEq

/-- One row of `df_funded` after the `explode` and the `grid_id`
assignment: the pandas index label `idx`, the four scalar columns, the
exploded `funding` cell and the newly assigned `grid_id` column. -/
structure FlatRow where
  idx : Nat
  doi : Option String
  funding : FundingAck
  grid_id : Option String
  pmid : Option String
  pmcid : Option String
deriving Repr, DecidableEq

/-- One row of the projected output frame
`df_funded[['doi', 'grid_id', 'pmid', 'pmcid']]`. -/
structure OutRow where
  doi : Option String
  grid_id : Option String
  pmid : Option String
  pmcid : Option String
deriving Repr, DecidableEq

/-- Python `range(start, stop)` over machine integers. -/
def python_range (start stop : Int) : List Int :=
  (List.range (stop - start).toNat).map (fun i => start + i)

/-- `get_s3_uris(base_uri, start_year, end_year)`: for every `year` in
`range(int(start_year), int(end_year) + 1)` append
`f'{base_uri}year={year}/'` then `f'{base_uri}year={year}.0/'`. -/
def get_s3_uris (base_uri : String) (start_year end_year : Int) : List String :=
  (python_range start_year (end_year + 1)).flatMap
    (fun year => [base_uri ++ "year=" ++ toString year ++ "/",
                  base_uri ++ "year=" ++ toString year ++ ".0/"])

/-- `df.loc[df['funding'].str.len() > 0].explode('funding')`: keep the
records whose funding list is non-empty, then emit one row per funding
element, each row carrying its original index label and parent record. -/
def df_funded_rows (records : List PublicationRecord) :
    List (Nat × PublicationRecord × FundingAck) :=
  (records.enum.filter (fun p => decide (0 < p.2.funding.length))).flatMap
    (fun p => p.2.funding.map (fun f => (p.1, p.2, f)))

/-- The value the assignment
`df_funded['grid_id'] = pd.DataFrame(df_funded['funding'].to_list())['grid_id']`
puts into the row with index label `label`: the helper frame is built on a
fresh `RangeIndex`, and pandas column assignment aligns BY INDEX LABEL, so
the row receives the helper frame's value at position `label` — NOT the
`grid_id` of its own exploded funding cell — and NaN when `label` is
beyond the helper frame's length. -/
def assigned_grid (records : List PublicationRecord) (label : Nat) : Option String :=
  ((df_funded_rows records).map (fun p => p.2.2.grid_id)).getD label none

/-- The rows of `df_funded` after the aligned column assignment, in the
non-degenerate case where the helper frame has a `grid_id` column. -/
def flatten_rows (records : List PublicationRecord) : List FlatRow :=
  (df_funded_rows records).map (fun p =>
    { idx := p.1, doi := p.2.1.doi, funding := p.2.2,
      grid_id := assigned_grid records p.1,
      pmid := p.2.1.pmid, pmcid := p.2.1.pmcid })

/-- Lines 48–50 of the script:
`df_funded = df.loc[df['funding'].str.len() > 0].explode('funding')`,
`funding = pd.DataFrame(df_funded['funding'].to_list())`,
`df_funded['grid_id'] = funding['grid_id']`.
When `df_funded` has no rows, `pd.DataFrame([])` has no columns at all and
`funding['grid_id']` raises `KeyError`; otherwise the aligned assignment
of `assigned_grid` takes place. -/
def flatten (records : List PublicationRecord) : Except String (List FlatRow) :=
  if (df_funded_rows records).isEmpty then
    .error "KeyError: grid_id"
  else
    .ok (flatten_rows records)

/-- Lines 51–53 of the script:
`df_funded.loc[df_funded['grid_id'] == grid_id]`,
`df_funded.loc[~df_funded['pmid'].isna()]`,
`df_funded = df_funded[['doi', 'grid_id', 'pmid', 'pmcid']]`.
The first two statements build filtered frames whose results are never
assigned back, exactly as in the source, so only the column projection
takes effect. -/
def filter_and_project (rows : List FlatRow) (grid_id : String) : List OutRow :=
  let _discarded_grid_mask := rows.filter (fun r => r.grid_id == some grid_id)
  let _discarded_pmid_mask := rows.filter (fun r => !r.pmid.isNone)
  rows.map (fun r =>
    { doi := r.doi, grid_id := r.grid_id, pmid := r.pmid, pmcid := r.pmcid })

/-- The body of the per-URI loop in `read_parquet`: flatten the partition
then run the (ineffective) filters and the projection. -/
def process_partition (records : List PublicationRecord) (grid_id : String) :
    Except String (List OutRow) :=
  (flatten records).map (fun rows => filter_and_project rows grid_id)

/-- `pd.concat(dfs)`: raises `ValueError` on an empty list of frames,
otherwise stacks the frames in order. -/
def pd_concat (dfs : List (List OutRow)) : Except String (List OutRow) :=
  if dfs.isEmpty then .error "No objects to concatenate" else .ok dfs.flatten

/-- The accumulation loop of `read_parquet`: process each URI in order,
collecting the per-partition frames; any partition failure aborts. -/
def read_parquet_dfs (uris : List String)
    (storage : String → List PublicationRecord) (grid_id : String) :
    Except String (List (List OutRow)) :=
  match uris with
  | [] => .ok []
  | u :: rest =>
      match process_partition (storage u) grid_id with
      | .error e => .error e
      | .ok df =>
          match read_parquet_dfs rest storage grid_id with
          | .error e => .error e
          | .ok dfs => .ok (df :: dfs)

/-- `read_parquet(uris, grid_id)`: loop over the URIs then
`return pd.concat(dfs)`. -/
def read_parquet (uris : List String)
    (storage : String → List PublicationRecord) (grid_id : String) :
    Except String (List OutRow) :=
  (read_parquet_dfs uris storage grid_id).bind pd_concat

/-- The pipeline body of `get_org_dois` (the final `wr.s3.to_parquet`
write is external I/O; we return the table that would be written). -/
def get_org_dois (storage : String → List PublicationRecord)
    (input_uri : String) (start_year end_year : Int) (grid_id : String) :
    Except String (List OutRow) :=
  read_parquet (get_s3_uris input_uri start_year end_year) storage grid_id

/-- Python keyword-argument binding of `get_org_dois`'s `grid_id`
parameter: the signature default `'grid.52788.30'` applies only when the
caller omits the argument entirely (`passed = none`); a caller-supplied
value — including an explicit `None` — overrides it. -/
def python_call_grid_id (passed : Option (Option String)) : Option String :=
  match passed with
  | some v => v
  | none => some "grid.52788.30"

/-- How click invokes the decorated command: `--grid_id` is declared by
`@click.option("--grid_id")` with no default, so click parses it to
`None` when the flag is absent and ALWAYS passes the parsed value as a
keyword argument, so the Python signature default is never consulted. -/
def click_invoke_grid_id (flag_value : Option String) : Option String :=
  python_call_grid_id (some flag_value)

/-- Restatement of the spec's PartitionLocator year range: the inclusive
range `[start_year, end_year]` ascending, empty when
`end_year < start_year`. -/
def year_range (start_year end_year : Int) : List Int :=
  (List.range
      (if start_year ≤ end_year then (end_year - start_year).toNat + 1 else 0)).map
    (fun i => start_year + i)

/-- Restatement of the spec's PartitionLocator contract, written from the
spec's words: for each year `y` of the inclusive range, the two
candidate locations `base + "year=" + y + "/"` then
`base + "year=" + y + ".0/"`, years ascending. -/
def locate_spec (base : String) (start_year end_year : Int) : List String :=
  (year_range start_year end_year).flatMap
    (fun y => [base ++ "year=" ++ toString y ++ "/",
               base ++ "year=" ++ toString y ++ ".0/"])

/-- Total number of funding acknowledgments over all records of all
scanned partitions. -/
def total_funding_count (uris : List String)
    (storage : String → List PublicationRecord) : Nat :=
  (uris.map (fun u => ((storage u).map (fun r => r.funding.length)).sum)).sum

/-- The three flattened rows of the spec's filter-conjunction example:
`[{grid_id:"X", pmid:"1"}, {grid_id:"X", pmid:None}, {grid_id:"Y", pmid:"2"}]`. -/
def c1_rows : List FlatRow :=
  [{ idx := 0, doi := none, funding := { grid_id := some "X" },
     grid_id := some "X", pmid := some "1", pmcid := none },
   { idx := 1, doi := none, funding := { grid_id := some "X" },
     grid_id := some "X", pmid := none, pmcid := none },
   { idx := 2, doi := none, funding := { grid_id := some "Y" },
     grid_id := some "Y", pmid := some "2", pmcid := none }]

/-- A one-partition corpus whose single record is funded by organization
`Y` and has a null `pmid`. -/
def c2_storage : String → List PublicationRecord :=
  fun _ => [{ doi := none, funding := [{ grid_id := some "Y" }],
              pmid := none, pmcid := none }]

/-- A record with three funding acknowledgments, for organizations `A`,
`B` and `C`. -/
def c3_record : PublicationRecord :=
  { doi := some "d",
    funding := [{ grid_id := some "A" }, { grid_id := some "B" },
                { grid_id := some "C" }],
    pmid := some "p", pmcid := some "q" }

/-- A batch whose first record has an empty funding list and whose second
record keeps the flattened frame non-empty. -/
def c5_records : List PublicationRecord :=
  [{ doi := none, funding := [], pmid := none, pmcid := none },
   { doi := some "d", funding := [{ grid_id := some "A" }],
     pmid := some "p", pmcid := none }]

/-- A one-partition corpus with a single singly-funded record. -/
def c6_storage : String → List PublicationRecord :=
  fun _ => [{ doi := some "d", funding := [{ grid_id := some "W" }],
              pmid := some "p", pmcid := none }]

/-- A one-partition corpus whose single record is funded by organization
`Y` (not the target) and has a non-null `pmid`: it matches neither filter
conjunct's complement, i.e. the partition has zero matching rows. -/
def c7_storage : String → List PublicationRecord :=
  fun _ => [{ doi := some "d", funding := [{ grid_id := some "Y" }],
              pmid := some "2", pmcid := none }]

/-- The table the pipeline actually produces from `c7_storage`. -/
def c7_out : List OutRow :=
  [{ doi := some "d", grid_id := some "Y", pmid := some "2", pmcid := none }]

/-- A corpus in which every location is empty. -/
def c10_storage : String → List PublicationRecord := fun _ => []

/-! ## Helper lemmas -/

/-- An empty year range produces no URIs: `range(s, e + 1)` is empty when
`e < s`. -/
theorem get_s3_uris_eq_nil (base : String) (s e : Int) (h : e < s) :
    get_s3_uris base s e = [] := by
  have hz : (e + 1 - s).toNat = 0 := by omega
  simp [get_s3_uris, python_range, hz]

/-- The exploded frame has at most one row per funding acknowledgment of
the input batch. -/
theorem df_funded_rows_length_le (records : List PublicationRecord) :
    (df_funded_rows records).length ≤
      (records.map (fun r => r.funding.length)).sum := by
  have h0 : (df_funded_rows records).length =
      ((records.enum.filter (fun p => decide (0 < p.2.funding.length))).map
        (fun p => p.2.funding.length)).sum := by
    simp [df_funded_rows, List.length_flatMap, Function.comp_def]
  rw [h0]
  have hsub :
      ((records.enum.filter (fun p => decide (0 < p.2.funding.length))).map
          (fun p => p.2.funding.length)).Sublist
        (records.enum.map (fun p => p.2.funding.length)) :=
    (List.filter_sublist records.enum).map _
  have hle := hsub.sum_le_sum (by simp)
  have henum : records.enum.map (fun p => p.2.funding.length) =
      records.map (fun r => r.funding.length) := by
    rw [show (fun p : Nat × PublicationRecord => p.2.funding.length) =
          (fun r : PublicationRecord => r.funding.length) ∘ Prod.snd from rfl,
        ← List.map_map, List.enum_map_snd]
  rw [henum] at hle
  exact hle

/-- A successful `flatten` returns one row per exploded row. -/
theorem flatten_ok_length (records : List PublicationRecord)
    (rows : List FlatRow) (h : flatten records = .ok rows) :
    rows.length = (df_funded_rows records).length := by
  rw [flatten] at h
  split at h
  · exact absurd h (by simp)
  · injection h with h'
    rw [← h', flatten_rows, List.length_map]

/-- A successful partition step yields at most one output row per funding
acknowledgment of the partition. -/
theorem process_partition_ok_length (records : List PublicationRecord)
    (g : String) (rows : List OutRow)
    (h : process_partition records g = .ok rows) :
    rows.length ≤ (records.map (fun r => r.funding.length)).sum := by
  rw [process_partition] at h
  cases hf : flatten records with
  | error e => rw [hf] at h; exact absurd h (by simp [Except.map])
  | ok flat =>
      rw [hf] at h
      simp only [Except.map] at h
      injection h with h'
      rw [← h']
      simp only [filter_and_project, List.length_map]
      rw [flatten_ok_length records flat hf]
      exact df_funded_rows_length_le records

/-- The accumulated per-partition frames of a successful loop carry at
most one row per funding acknowledgment of the whole corpus. -/
theorem read_parquet_dfs_ok_le (uris : List String)
    (storage : String → List PublicationRecord) (g : String)
    (dfs : List (List OutRow))
    (h : read_parquet_dfs uris storage g = .ok dfs) :
    (dfs.map List.length).sum ≤ total_funding_count uris storage := by
  induction uris generalizing dfs with
  | nil =>
      rw [read_parquet_dfs] at h
      injection h with h'
      rw [← h']
      simp [total_funding_count]
  | cons u rest ih =>
      rw [read_parquet_dfs] at h
      cases hdf : process_partition (storage u) g with
      | error e => rw [hdf] at h; exact absurd h (by simp)
      | ok df =>
          rw [hdf] at h
          cases hdfs : read_parquet_dfs rest storage g with
          | error e => rw [hdfs] at h; exact absurd h (by simp)
          | ok dfs2 =>
              rw [hdfs] at h
              dsimp only at h
              injection h with h'
              rw [← h']
              simp only [List.map_cons, List.sum_cons, total_funding_count,
                List.map, List.sum_cons]
              have h1 := process_partition_ok_length (storage u) g df hdf
              have h2 := ih dfs2 hdfs
              simp only [total_funding_count] at h2
              omega

/-! ## Claim theorems -/

/-- C1. The claim says the filter-and-project step keeps exactly the rows
with `grid_id == target` and non-null `pmid`; in the source the two
`df_funded.loc[...]` masks on lines 51–52 are computed but never assigned
back, so the step keeps ALL rows and only projects: on the spec's own
three-row example it returns three rows, not one. -/
theorem c1_filter_and_project_keeps_all_rows :
    filter_and_project c1_rows "X" =
      [{ doi := none, grid_id := some "X", pmid := some "1", pmcid := none },
       { doi := none, grid_id := some "X", pmid := none, pmcid := none },
       { doi := none, grid_id := some "Y", pmid := some "2", pmcid := none }] ∧
      (filter_and_project c1_rows "X").length ≠ 1 :=
  ⟨rfl, by decide⟩

/-- C2. The claim says every output row has `grid_id` equal to the target
and a non-null `pmid`; because the filter masks are discarded, a run over
a partition holding a single record funded by `Y` with null `pmid`, under
target `X`, produces an output row violating both conjuncts. -/
theorem c2_output_rows_violate_invariant :
    ∃ out, read_parquet ["u"] c2_storage "X" = .ok out ∧
      ¬ ∀ r ∈ out, r.grid_id = some "X" ∧ r.pmid ≠ none :=
  ⟨[{ doi := none, grid_id := some "Y", pmid := none, pmcid := none }],
    rfl, by decide⟩

/-- C3. The claim says a record with three funding acknowledgments
flattens into three rows each carrying its own acknowledgment's distinct
`grid_id`; the source assigns
`pd.DataFrame(df_funded['funding'].to_list())['grid_id']`, whose fresh
`RangeIndex` aligns position `i` with every exploded row LABELLED `i`, so
all three rows (label 0) receive the FIRST acknowledgment's `grid_id`. -/
theorem c3_flatten_assigns_first_grid_to_all_rows :
    (flatten [c3_record]).map
        (fun rows => rows.map (fun r => (r.doi, r.grid_id, r.pmid, r.pmcid))) =
      .ok [(some "d", some "A", some "p", some "q"),
           (some "d", some "A", some "p", some "q"),
           (some "d", some "A", some "p", some "q")] ∧
      (flatten [c3_record]).map (fun rows => rows.map (fun r => r.grid_id)) ≠
        .ok [some "A", some "B", some "C"] := by
  refine ⟨rfl, ?_⟩
  have hval : (flatten [c3_record]).map (fun rows => rows.map (fun r => r.grid_id)) =
      (.ok [some "A", some "A", some "A"] :
        Except String (List (Option String))) := rfl
  rw [hval]
  intro h
  exact absurd (Except.ok.inj h) (by decide)

/-- C4. `get_s3_uris` emits, for each year of the inclusive range in
ascending order, the plain-integer location then the float-suffixed
location, agreeing with the spec's PartitionLocator contract on all
inputs, and returns exactly the four expected locations on the spec's
2019–2020 example. -/
theorem c4_get_s3_uris_matches_locate_spec :
    (∀ (base : String) (s e : Int),
        get_s3_uris base s e = locate_spec base s e) ∧
      get_s3_uris "s3://b/" 2019 2020 =
        ["s3://b/year=2019/", "s3://b/year=2019.0/",
         "s3://b/year=2020/", "s3://b/year=2020.0/"] := by
  refine ⟨fun base s e => ?_, by decide⟩
  have hn : (e + 1 - s).toNat =
      if s ≤ e then (e - s).toNat + 1 else 0 := by
    split <;> omega
  simp only [get_s3_uris, locate_spec, year_range, python_range, hn]

/-- C5. A record whose funding list is empty is removed by the
`str.len() > 0` mask before the explode, so it contributes no row to the
exploded frame nor to a successful `flatten` result. -/
theorem c5_empty_funding_record_contributes_zero_rows
    (records : List PublicationRecord) (i : Nat) (r : PublicationRecord)
    (hi : records[i]? = some r) (he : r.funding = []) :
    (df_funded_rows records).countP (fun p => p.1 == i) = 0 ∧
      ∀ rows, flatten records = .ok rows →
        rows.countP (fun row => row.idx == i) = 0 := by
  have hmain : (df_funded_rows records).countP (fun p => p.1 == i) = 0 := by
    rw [List.countP_eq_zero]
    intro p hp
    simp only [df_funded_rows, List.mem_flatMap, List.mem_filter,
      List.mem_map] at hp
    obtain ⟨⟨qi, qr⟩, ⟨hq_enum, hq_len⟩, f, hf, rfl⟩ := hp
    simp only [beq_iff_eq]
    intro hqi
    subst hqi
    rw [List.mk_mem_enum_iff_getElem?] at hq_enum
    rw [hq_enum] at hi
    injection hi with hi'
    rw [hi', he] at hf
    exact List.not_mem_nil f hf
  refine ⟨hmain, fun rows hrows => ?_⟩
  rw [flatten] at hrows
  split at hrows
  · exact absurd hrows (by simp)
  · injection hrows with h'
    rw [← h', flatten_rows, List.countP_map]
    exact hmain

/-- Witness for C5 at a concrete batch: its first record has an empty
funding list and contributes no row. -/
theorem c5_empty_funding_record_contributes_zero_rows_witness :
    c5_records[0]? =
        some { doi := none, funding := [], pmid := none, pmcid := none } ∧
      ((df_funded_rows c5_records).countP (fun p => p.1 == 0) = 0 ∧
        ∀ rows, flatten c5_records = .ok rows →
          rows.countP (fun row => row.idx == 0) = 0) :=
  ⟨rfl, c5_empty_funding_record_contributes_zero_rows c5_records 0
    { doi := none, funding := [], pmid := none, pmcid := none } rfl rfl⟩

/-- C6. Whenever the pipeline returns a table, that table has at most one
row per funding acknowledgment of the scanned corpus: flattening emits
one row per acknowledgment of the retained records and no later step adds
rows. -/
theorem c6_output_length_le_total_funding (uris : List String)
    (storage : String → List PublicationRecord) (g : String)
    (out : List OutRow) (h : read_parquet uris storage g = .ok out) :
    out.length ≤ total_funding_count uris storage := by
  rw [read_parquet] at h
  cases hd : read_parquet_dfs uris storage g with
  | error e => rw [hd] at h; exact absurd h (by simp [Except.bind])
  | ok dfs =>
      rw [hd] at h
      dsimp only [Except.bind] at h
      rw [pd_concat] at h
      split at h
      · exact absurd h (by simp)
      · injection h with h'
        rw [← h', List.length_flatten]
        exact read_parquet_dfs_ok_le uris storage g dfs hd

/-- Witness for C6 at a concrete run: one partition with one singly-funded
record yields one output row, and one acknowledgment exists in total. -/
theorem c6_output_length_le_total_funding_witness :
    read_parquet ["u"] c6_storage "X" =
        .ok [{ doi := some "d", grid_id := some "W",
               pmid := some "p", pmcid := none }] ∧
      ([{ doi := some "d", grid_id := some "W",
          pmid := some "p", pmcid := none }] : List OutRow).length ≤
        total_funding_count ["u"] c6_storage :=
  ⟨rfl, c6_output_length_le_total_funding ["u"] c6_storage "X" _ rfl⟩

/-- C7. The claim says a run in which every partition yields zero matching
rows returns an EMPTY table; because the filter masks are discarded, a
partition whose only record is funded by `Y` (target `X`) has zero
matching rows yet the pipeline returns that row: the output is
non-empty. -/
theorem c7_zero_matching_rows_yet_nonempty_output :
    read_parquet ["u"] c7_storage "X" = .ok c7_out ∧
      (∀ r ∈ c7_out, ¬(r.grid_id = some "X" ∧ r.pmid ≠ none)) ∧
      c7_out ≠ [] :=
  ⟨rfl, by decide, by decide⟩

/-- C8. An inverted year range (`end_year < start_year`) makes
`range(int(start_year), int(end_year) + 1)` empty, so `get_s3_uris`
returns the empty list without any error. -/
theorem c8_empty_year_range_yields_no_uris (base : String) (s e : Int)
    (h : e < s) : get_s3_uris base s e = [] :=
  get_s3_uris_eq_nil base s e h

/-- Witness for C8 at the spec's example `start_year=2021, end_year=2020`. -/
theorem c8_empty_year_range_yields_no_uris_witness :
    (2020 : Int) < 2021 ∧ get_s3_uris "s3://b/" 2021 2020 = [] :=
  ⟨by decide, c8_empty_year_range_yields_no_uris "s3://b/" 2021 2020 (by decide)⟩

/-- C9. The claim says omitting `--grid_id` makes the pipeline use the
default `grid.52788.30`; but the option is declared by
`@click.option("--grid_id")` with no default, so click parses the absent
flag to `None` and always passes it as a keyword argument, overriding the
signature default `grid_id='grid.52788.30'`, which would only apply to a
call omitting the argument. -/
theorem c9_omitted_flag_yields_none_not_default :
    click_invoke_grid_id none = none ∧
      python_call_grid_id none = some "grid.52788.30" ∧
      click_invoke_grid_id none ≠ some "grid.52788.30" :=
  ⟨rfl, rfl, by decide⟩

/-- C10. With `end_year < start_year` the URI list is empty, the per-URI
loop appends no frame, and `pd.concat([])` raises
`ValueError: No objects to concatenate`: the run fails instead of writing
an empty table, even though the empty range itself was accepted. -/
theorem c10_empty_range_run_crashes_at_concat
    (storage : String → List PublicationRecord) (base : String)
    (s e : Int) (g : String) (h : e < s) :
    get_s3_uris base s e = [] ∧
      get_org_dois storage base s e g =
        .error "No objects to concatenate" := by
  have hnil := get_s3_uris_eq_nil base s e h
  refine ⟨hnil, ?_⟩
  rw [get_org_dois, hnil]
  rfl

/-- Witness for C10 at a concrete inverted range. -/
theorem c10_empty_range_run_crashes_at_concat_witness :
    (2020 : Int) < 2021 ∧
      (get_s3_uris "s3://b/" 2021 2020 = [] ∧
        get_org_dois c10_storage "s3://b/" 2021 2020 "grid.52788.30" =
          .error "No objects to concatenate") :=
  ⟨by decide, c10_empty_range_run_crashes_at_concat c10_storage "s3://b/"
    2021 2020 "grid.52788.30" (by decide)⟩

end AAIM
